import Mathlib

/-!
Verification of the kameo actor-runtime core against its specification.

The development shallowly embeds the data model and the dispatch functions of
the repository: the mailbox signal type and its dynamic downcast
(`src/actor/mailbox.rs`), the erased message and query dispatch together with
the handler context (`crates/kameo/src/message.rs`), and the `Actor` trait
with its default lifecycle hooks (`crates/kameo/src/actor.rs`).

Types that live in modules outside the provided sources (`error.rs`,
`reply.rs`, `actor_ref.rs`) are modelled from the specification text and kept
minimal: only the structure the claims depend on is retained.  Asynchronous
handler bodies are collapsed to pure functions, which is adequate for the
properties treated here (reply routing, default hook values, frame effects).
-/

/-- Process-unique actor identifier.  In the source it is a 64-bit integer
(`id: u64` in `on_link_died`); arithmetic on identifiers never occurs in the
code under study, so it is embedded as `Nat`. -/
abbrev ActorID := Nat

/-- Modelled from the spec: `BoxError` from `error.rs` is an erased boxed
error value; only its textual summary is retained. -/
def BoxError := String

/-- Modelled from the spec: `PanicError` from `error.rs` carries a boxed
dynamic payload plus a textual summary; the payload is opaque to every claim
treated here, so only the summary is retained. -/
structure PanicError where
  summary : String
deriving DecidableEq, Repr

/-- Modelled from the spec: `ActorStopReason` from `error.rs` is the tagged
variant `Normal | Killed | Panicked(cause) | LinkDied { id, inner }`, with the
inner reason recursive to preserve a chain.  The exhaustive match in the
default `on_link_died` hook in `actor.rs` confirms exactly these four
variants. -/
inductive ActorStopReason where
  | normal
  | killed
  | panicked (err : PanicError)
  | linkDied (id : ActorID) (reason : ActorStopReason)
deriving DecidableEq, Repr

/-- Modelled from the spec: the strong handle `ActorRef<A>` from
`actor_ref.rs` carries an ID, a strong mailbox, a links registry handle and an
abort handle; only the ID is retained, the phantom parameter records the
actor type. -/
structure ActorRef (A : Type) where
  id : ActorID
deriving DecidableEq, Repr

/-- Modelled from the spec: the weak handle `WeakActorRef<A>` from
`actor_ref.rs` carries an ID and a weak mailbox; only the ID is retained. -/
structure WeakActorRef (A : Type) where
  id : ActorID
deriving DecidableEq, Repr

/-- Modelled from the spec: a one-shot channel sender
(`tokio::sync::oneshot::Sender`), identified by its channel. -/
structure OneshotSender (T : Type) where
  chanId : Nat
deriving DecidableEq, Repr

/-- Modelled from the spec: `ReplySender<V>` from `reply.rs` wraps the
one-shot sender half of the reply channel. -/
structure ReplySender (V : Type) where
  inner : OneshotSender V
deriving DecidableEq, Repr

/-- Embeds `ReplySender::new` wrapping a raw one-shot sender. -/
def ReplySender.new {V : Type} (tx : OneshotSender V) : ReplySender V :=
  ⟨tx⟩

/-- Modelled from the spec: `DelegatedReply<V>` from `reply.rs` is a marker
type with no data, produced by `Context::reply_sender`. -/
structure DelegatedReply (V : Type) where
deriving DecidableEq, Repr

/-- Embeds `DelegatedReply::new`. -/
def DelegatedReply.new {V : Type} : DelegatedReply V :=
  ⟨⟩

/-- An erased payload (`Box<dyn Any>`): a value tagged with its dynamic type.
The open universe of Rust types is represented by an index type `ι` with a
family `F` giving the value type of each index. -/
structure BoxAny (ι : Type) (F : ι → Type) where
  ty : ι
  val : F ty

/-- Embeds `Box<dyn Any>::downcast::<M>()`: succeeds exactly when the dynamic
type tag equals the requested one. -/
def BoxAny.downcast {ι : Type} [DecidableEq ι] {F : ι → Type}
    (b : BoxAny ι F) (t : ι) : Option (F t) :=
  if h : b.ty = t then some (h ▸ b.val) else none

/-- Embeds `Signal<A>` from `src/actor/mailbox.rs` (lines 49 to 62).  The
enum there has exactly four variants: `StartupFinished`, `Message { message,
actor_ref, reply, sent_within_actor }`, `LinkDied { id, reason }` and `Stop`.
`Rep` stands for the one-shot reply sender type carried by the `reply` field
(`oneshot::Sender<Result<BoxReply, BoxSendError>>` in the source). -/
inductive Signal (ι : Type) (F : ι → Type) (A : Type) (Rep : Type) where
  | startupFinished
  | message (message : BoxAny ι F) (actor_ref : ActorRef A)
      (reply : Option Rep) (sent_within_actor : Bool)
  | linkDied (id : ActorID) (reason : ActorStopReason)
  | stop

/-- The tag of a signal, naming its variant as written in the source enum. -/
def Signal.tag {ι : Type} {F : ι → Type} {A Rep : Type} :
    Signal ι F A Rep → String
  | .startupFinished => "StartupFinished"
  | .message _ _ _ _ => "Message"
  | .linkDied _ _ => "LinkDied"
  | .stop => "Stop"

/-- Embeds `Signal::downcast_message::<M>` from `src/actor/mailbox.rs` (lines
64 to 74): on a `Message` variant it downcasts the erased payload to the
requested type, on every other variant it returns `None`. -/
def Signal.downcast_message {ι : Type} [DecidableEq ι] {F : ι → Type}
    {A Rep : Type} (s : Signal ι F A Rep) (t : ι) : Option (F t) :=
  match s with
  | .message m _ _ _ => m.downcast t
  | _ => none

/-- Embeds the default body of `Actor::name`: the host type-name reflection
`any::type_name::<Self>()`.  The host reflection is external to the program,
so its result for the actor type is taken as a parameter and the default
returns it unchanged. -/
def defaultName (typeNameOfA : String) : String :=
  typeNameOfA

/-- Embeds the default body of `Actor::max_concurrent_queries`: the host CPU
count `num_cpus::get()`, taken as a parameter and returned unchanged. -/
def defaultMaxConcurrentQueries (numCpus : Nat) : Nat :=
  numCpus

/-- Embeds the `Actor` trait of `crates/kameo/src/actor.rs` as a record of
its methods for a state type `A`.  A method taking `&mut self` becomes a
function returning the updated state alongside its result; `on_stop` takes
`self` by value and its result type mentions no `A`: the state is consumed.
Every lifecycle hook takes a `WeakActorRef A`. -/
structure ActorTrait (A : Type) where
  name : String
  maxConcurrentQueries : Nat
  onStart : A → WeakActorRef A → Except BoxError Unit × A
  onPanic : A → WeakActorRef A → PanicError →
    Except BoxError (Option ActorStopReason) × A
  onLinkDied : A → WeakActorRef A → ActorID → ActorStopReason →
    Except BoxError (Option ActorStopReason) × A
  onStop : A → WeakActorRef A → ActorStopReason → Except BoxError Unit

/-- The `Actor` trait instance with every method left at its default body,
embedding lines 44 to 130 of `crates/kameo/src/actor.rs`:
`on_start` returns `Ok(())`; `on_panic` returns
`Ok(Some(ActorStopReason::Panicked(err)))`; `on_link_died` matches the
reason, returning `Ok(None)` on `Normal` and
`Ok(Some(ActorStopReason::LinkDied { id, reason: Box::new(reason) }))` on
`Killed`, `Panicked(_)` and `LinkDied { .. }`; `on_stop` returns `Ok(())`. -/
def mkDefaultActor (A : Type) (typeNameOfA : String) (numCpus : Nat) :
    ActorTrait A where
  name := defaultName typeNameOfA
  maxConcurrentQueries := defaultMaxConcurrentQueries numCpus
  onStart := fun a _ => (Except.ok (), a)
  onPanic := fun a _ err =>
    (Except.ok (some (ActorStopReason.panicked err)), a)
  onLinkDied := fun a _ id reason =>
    match reason with
    | ActorStopReason.normal => (Except.ok none, a)
    | ActorStopReason.killed =>
        (Except.ok (some (ActorStopReason.linkDied id
          ActorStopReason.killed)), a)
    | ActorStopReason.panicked e =>
        (Except.ok (some (ActorStopReason.linkDied id
          (ActorStopReason.panicked e))), a)
    | ActorStopReason.linkDied pid pr =>
        (Except.ok (some (ActorStopReason.linkDied id
          (ActorStopReason.linkDied pid pr))), a)
  onStop := fun _ _ _ => Except.ok ()

/-- Embeds `Context<'r, A, R>` from `crates/kameo/src/message.rs`: the
originating actor reference and the mutably borrowed optional reply sender,
`V` being the value type of the reply. -/
structure Context (A V : Type) where
  actor_ref : ActorRef A
  reply : Option (ReplySender V)

/-- Embeds `Context::new`. -/
def Context.new {A V : Type} (actor_ref : ActorRef A)
    (reply : Option (ReplySender V)) : Context A V :=
  ⟨actor_ref, reply⟩

/-- Embeds `Context::reply_sender` (lines 97 to 99 of `message.rs`):
`(DelegatedReply::new(), self.reply.take())`.  The returned pair is the
method result; the third component is the context after the call, with the
reply sender taken out. -/
def Context.reply_sender {A V : Type} (ctx : Context A V) :
    (DelegatedReply V × Option (ReplySender V)) × Context A V :=
  ((DelegatedReply.new, ctx.reply), { ctx with reply := none })

/-- A message handler body (`Message::handle` with `&mut self`): given the
state, the message, the originating actor reference and whether the context
currently holds a reply sender, it produces the reply and the updated state.
`takes` records whether the handler extracts the sender through
`Context::reply_sender`; a handler can only take the sender out, never put
one in. -/
structure MsgHandler (A M R : Type) where
  run : A → M → ActorRef A → Bool → R × A
  takes : A → M → ActorRef A → Bool → Bool

/-- A query handler body (`Query::handle` with `&self`): shared immutable
access, so no updated state is produced. -/
structure QryHandler (A M R : Type) where
  run : A → M → ActorRef A → Bool → R
  takes : A → M → ActorRef A → Bool → Bool

/-- Embeds `DynMessage::handle_dyn` (lines 122 to 143 of `message.rs`).
`intoValue` and `intoBoxedErr` embed the `Reply` capability of the handler
reply type.  Result components: the state after the handler, the value sent
through the reply channel (paired with the sender used), and the payload of
a `panic_any` raised by the dispatch, if any.  Following the source: the
optional sender is wrapped by `ReplySender::new`, the handler runs, then if
the context still holds the sender the reply value is sent through it;
otherwise, if the reply carries a boxed error, that error is re-raised as a
panic; otherwise nothing happens. -/
def DynMessage.handleDyn {A M R V E : Type} (h : MsgHandler A M R)
    (intoValue : R → V) (intoBoxedErr : R → Option E)
    (state : A) (msg : M) (actor_ref : ActorRef A)
    (tx : Option (OneshotSender V)) :
    A × Option (OneshotSender V × V) × Option E :=
  let replySender := tx.map ReplySender.new
  let present := replySender.isSome
  let (reply, state1) := h.run state msg actor_ref present
  let residual : Option (ReplySender V) :=
    if h.takes state msg actor_ref present then none else replySender
  match residual with
  | some s => (state1, some (s.inner, intoValue reply), none)
  | none =>
    match intoBoxedErr reply with
    | some e => (state1, none, some e)
    | none => (state1, none, none)

/-- Embeds `DynQuery::handle_dyn` (lines 167 to 188 of `message.rs`): the
same reply routing as the message dispatch, but the handler only has shared
access to the state (`&A` in the source), so the state component of the
result is the input state. -/
def DynQuery.handleDyn {A M R V E : Type} (h : QryHandler A M R)
    (intoValue : R → V) (intoBoxedErr : R → Option E)
    (state : A) (msg : M) (actor_ref : ActorRef A)
    (tx : Option (OneshotSender V)) :
    A × Option (OneshotSender V × V) × Option E :=
  let replySender := tx.map ReplySender.new
  let present := replySender.isSome
  let reply := h.run state msg actor_ref present
  let residual : Option (ReplySender V) :=
    if h.takes state msg actor_ref present then none else replySender
  match residual with
  | some s => (state, some (s.inner, intoValue reply), none)
  | none =>
    match intoBoxedErr reply with
    | some e => (state, none, some e)
    | none => (state, none, none)

/-- Modelled from the spec: the `Reply` capability of `Result`-shaped replies
from `reply.rs` forwards the whole result as the value, so a waiting caller
receives an error reply as `Err`. -/
def exceptIntoValue {E T : Type} (r : Except E T) : Except E T :=
  r

/-- Modelled from the spec: `into_boxed_err` of a `Result`-shaped reply is
`Some` exactly on the error case. -/
def exceptIntoBoxedErr {E T : Type} (r : Except E T) : Option E :=
  match r with
  | Except.error e => some e
  | Except.ok _ => none

/-- Embeds the `Message<M>` implementation for plain functions
(`impl<M, Fu, R> Message<M> for fn(M) -> Fu`, lines 134 to 145 of
`actor.rs`): the handler body is `self(msg).await`, ignoring the context and
leaving the function value unchanged; futures are collapsed to values. -/
def fnMsgHandler (M R : Type) : MsgHandler (M → R) M R where
  run := fun f m _ _ => (f m, f)
  takes := fun _ _ _ _ => false

/-- Stated from the words of the claim, for comparison with the source
embedding `fnMsgHandler`: handling a message `m` equals awaiting the function
applied to `m`. -/
def specFnHandle {M R : Type} (f : M → R) (m : M) : R :=
  f m

/-- Embeds `impl<M, R> Actor for fn(M) -> R {}` (line 132 of `actor.rs`): the
empty implementation, so every method keeps its default body. -/
def fnActorTrait (M R : Type) (typeNameOfA : String) (numCpus : Nat) :
    ActorTrait (M → R) :=
  mkDefaultActor (M → R) typeNameOfA numCpus

/-- C1 (counterexample): the claim asserts a distinct `Query` variant in
`Signal<A>`; the enum of `src/actor/mailbox.rs` has no such variant — no
signal has the tag `Query`. -/
theorem c1_no_query_variant :
    ¬ ∃ s : Signal Unit (fun _ => Unit) Unit Unit, Signal.tag s = "Query" := by
  rintro ⟨s, h⟩
  cases s <;> simp [Signal.tag] at h

/-- C1 (amended): `Signal<A>` is a tagged variant with exactly the four
variants `StartupFinished`, `Message` (erased payload, originating actor
reference, optional reply sender, sent-within-actor flag), `LinkDied` (peer
ID and stop reason) and `Stop`; every signal is one of these and the four
tags are as named in the source. -/
theorem c1_signal_four_variants :
    ∀ (ι : Type) (F : ι → Type) (A Rep : Type) (s : Signal ι F A Rep),
      (s = Signal.startupFinished ∨
        (∃ m ar reply w, s = Signal.message m ar reply w) ∨
        (∃ id r, s = Signal.linkDied id r) ∨
        s = Signal.stop) ∧
      Signal.tag (Signal.startupFinished : Signal ι F A Rep) =
        "StartupFinished" ∧
      (∀ m ar reply w,
        Signal.tag (Signal.message m ar reply w : Signal ι F A Rep) =
          "Message") ∧
      (∀ id r,
        Signal.tag (Signal.linkDied id r : Signal ι F A Rep) = "LinkDied") ∧
      Signal.tag (Signal.stop : Signal ι F A Rep) = "Stop" := by
  intro ι F A Rep s
  refine ⟨?_, rfl, fun _ _ _ _ => rfl, fun _ _ => rfl, rfl⟩
  cases s with
  | startupFinished => exact Or.inl rfl
  | message m ar reply w =>
      exact Or.inr (Or.inl ⟨m, ar, reply, w, rfl⟩)
  | linkDied id r => exact Or.inr (Or.inr (Or.inl ⟨id, r, rfl⟩))
  | stop => exact Or.inr (Or.inr (Or.inr rfl))

/-- C2: reply routing of a completed handler invocation, for both message and
query dispatch.  If the context still holds the reply sender after the
handler returns, the dispatch sends the reply value through it and raises no
panic (in particular an error-carrying reply reaches the waiting caller as
`Err`); if no sender remains — the caller used `tell` (`tx = none`) or the
handler took the sender — the dispatch raises a panic exactly when the reply
carries a boxed error, with that error as payload; otherwise nothing is sent
and nothing is raised. -/
theorem c2_auto_reply_rule :
    ∀ (A M R V E : Type) (run : A → M → ActorRef A → Bool → R × A)
      (qrun : A → M → ActorRef A → Bool → R)
      (intoValue : R → V) (intoBoxedErr : R → Option E)
      (s : A) (m : M) (ar : ActorRef A) (t : OneshotSender V),
      DynMessage.handleDyn ⟨run, fun _ _ _ _ => false⟩ intoValue intoBoxedErr
          s m ar (some t) =
        ((run s m ar true).2, some (t, intoValue (run s m ar true).1),
          none) ∧
      DynMessage.handleDyn ⟨run, fun _ _ _ _ => false⟩ intoValue intoBoxedErr
          s m ar none =
        ((run s m ar false).2, none, intoBoxedErr (run s m ar false).1) ∧
      (∀ t0, DynMessage.handleDyn ⟨run, fun _ _ _ _ => true⟩ intoValue
          intoBoxedErr s m ar (some t0) =
        ((run s m ar true).2, none, intoBoxedErr (run s m ar true).1)) ∧
      DynMessage.handleDyn ⟨run, fun _ _ _ _ => true⟩ intoValue
          intoBoxedErr s m ar none =
        ((run s m ar false).2, none, intoBoxedErr (run s m ar false).1) ∧
      (∀ (T : Type) (e : E) (te : OneshotSender (Except E T))
          (g : A → M → ActorRef A → Bool → A),
        DynMessage.handleDyn
            ⟨fun a mm rr p => (Except.error e, g a mm rr p),
              fun _ _ _ _ => false⟩
            exceptIntoValue exceptIntoBoxedErr s m ar (some te) =
          (g s m ar true, some (te, Except.error e), none)) ∧
      DynQuery.handleDyn ⟨qrun, fun _ _ _ _ => false⟩ intoValue intoBoxedErr
          s m ar (some t) =
        (s, some (t, intoValue (qrun s m ar true)), none) ∧
      DynQuery.handleDyn ⟨qrun, fun _ _ _ _ => false⟩ intoValue intoBoxedErr
          s m ar none =
        (s, none, intoBoxedErr (qrun s m ar false)) ∧
      (∀ t0, DynQuery.handleDyn ⟨qrun, fun _ _ _ _ => true⟩ intoValue
          intoBoxedErr s m ar (some t0) =
        (s, none, intoBoxedErr (qrun s m ar true))) ∧
      DynQuery.handleDyn ⟨qrun, fun _ _ _ _ => true⟩ intoValue
          intoBoxedErr s m ar none =
        (s, none, intoBoxedErr (qrun s m ar false)) := by
  intro A M R V E run qrun intoValue intoBoxedErr s m ar t
  refine ⟨rfl, ?_, ?_, ?_, fun T e te g => rfl, rfl, ?_, ?_, ?_⟩
  · show (match intoBoxedErr (run s m ar false).1 with
      | some e => ((run s m ar false).2, none, some e)
      | none => ((run s m ar false).2, none, none)) = _
    cases intoBoxedErr (run s m ar false).1 <;> rfl
  · intro t0
    show (match intoBoxedErr (run s m ar true).1 with
      | some e => ((run s m ar true).2, none, some e)
      | none => ((run s m ar true).2, none, none)) = _
    cases intoBoxedErr (run s m ar true).1 <;> rfl
  · show (match intoBoxedErr (run s m ar false).1 with
      | some e => ((run s m ar false).2, none, some e)
      | none => ((run s m ar false).2, none, none)) = _
    cases intoBoxedErr (run s m ar false).1 <;> rfl
  · show (match intoBoxedErr (qrun s m ar false) with
      | some e => (s, none, some e)
      | none => (s, none, none)) = _
    cases intoBoxedErr (qrun s m ar false) <;> rfl
  · intro t0
    show (match intoBoxedErr (qrun s m ar true) with
      | some e => (s, none, some e)
      | none => (s, none, none)) = _
    cases intoBoxedErr (qrun s m ar true) <;> rfl
  · show (match intoBoxedErr (qrun s m ar false) with
      | some e => (s, none, some e)
      | none => (s, none, none)) = _
    cases intoBoxedErr (qrun s m ar false) <;> rfl

/-- C3: for every actor type, ID and stop reason, the default `on_link_died`
hook returns `Ok(None)` when the peer reason is `Normal`, and
`Ok(Some(LinkDied { id, reason }))` — wrapping the peer ID and the original
reason, preserving the chain — when the peer reason is `Killed`, `Panicked`
or `LinkDied`; the state is untouched. -/
theorem c3_default_on_link_died :
    ∀ (A : Type) (tn : String) (nc : Nat) (a : A) (w : WeakActorRef A)
      (id : ActorID),
      (mkDefaultActor A tn nc).onLinkDied a w id ActorStopReason.normal =
        (Except.ok none, a) ∧
      (mkDefaultActor A tn nc).onLinkDied a w id ActorStopReason.killed =
        (Except.ok (some (ActorStopReason.linkDied id
          ActorStopReason.killed)), a) ∧
      (∀ e, (mkDefaultActor A tn nc).onLinkDied a w id
          (ActorStopReason.panicked e) =
        (Except.ok (some (ActorStopReason.linkDied id
          (ActorStopReason.panicked e))), a)) ∧
      (∀ pid pr, (mkDefaultActor A tn nc).onLinkDied a w id
          (ActorStopReason.linkDied pid pr) =
        (Except.ok (some (ActorStopReason.linkDied id
          (ActorStopReason.linkDied pid pr))), a)) := by
  intro A tn nc a w id
  exact ⟨rfl, rfl, fun e => rfl, fun pid pr => rfl⟩

/-- C4: for every actor type and panic error, the default `on_panic` hook
returns `Ok(Some(Panicked(err)))`: by default a panicking handler stops the
actor with reason `Panicked` carrying that error. -/
theorem c4_default_on_panic :
    ∀ (A : Type) (tn : String) (nc : Nat) (a : A) (w : WeakActorRef A)
      (err : PanicError),
      (mkDefaultActor A tn nc).onPanic a w err =
        (Except.ok (some (ActorStopReason.panicked err)), a) := by
  intro A tn nc a w err
  rfl

/-- C5: `Context::reply_sender` removes the reply sender from the context
and returns it paired with a `DelegatedReply` marker; the returned sender is
`None` exactly when none was present; after the call the context holds no
sender, so a second call returns `None`; and a handler that has taken the
sender causes the dispatch — message or query — to perform no auto-reply. -/
theorem c5_reply_sender :
    ∀ (A V : Type) (ctx : Context A V),
      (Context.reply_sender ctx).1 = (DelegatedReply.new, ctx.reply) ∧
      ((Context.reply_sender ctx).1.2 = none ↔ ctx.reply = none) ∧
      ((Context.reply_sender ctx).2).reply = none ∧
      (Context.reply_sender ((Context.reply_sender ctx).2)).1.2 = none ∧
      (∀ (M R E : Type) (run : A → M → ActorRef A → Bool → R × A)
          (intoValue : R → V) (intoBoxedErr : R → Option E)
          (s : A) (m : M) (ar : ActorRef A) (tx : Option (OneshotSender V)),
        (DynMessage.handleDyn ⟨run, fun _ _ _ _ => true⟩ intoValue
          intoBoxedErr s m ar tx).2.1 = none) ∧
      (∀ (M R E : Type) (qrun : A → M → ActorRef A → Bool → R)
          (intoValue : R → V) (intoBoxedErr : R → Option E)
          (s : A) (m : M) (ar : ActorRef A) (tx : Option (OneshotSender V)),
        (DynQuery.handleDyn ⟨qrun, fun _ _ _ _ => true⟩ intoValue
          intoBoxedErr s m ar tx).2.1 = none) := by
  intro A V ctx
  refine ⟨rfl, Iff.rfl, rfl, rfl, ?_, ?_⟩
  · intro M R E run intoValue intoBoxedErr s m ar tx
    cases tx with
    | none =>
        show (match intoBoxedErr (run s m ar false).1 with
          | some e => ((run s m ar false).2, none, some e)
          | none => ((run s m ar false).2, none, none)).2.1 = none
        cases intoBoxedErr (run s m ar false).1 <;> rfl
    | some t0 =>
        show (match intoBoxedErr (run s m ar true).1 with
          | some e => ((run s m ar true).2, none, some e)
          | none => ((run s m ar true).2, none, none)).2.1 = none
        cases intoBoxedErr (run s m ar true).1 <;> rfl
  · intro M R E qrun intoValue intoBoxedErr s m ar tx
    cases tx with
    | none =>
        show (match intoBoxedErr (qrun s m ar false) with
          | some e => (s, none, some e)
          | none => (s, none, none)).2.1 = none
        cases intoBoxedErr (qrun s m ar false) <;> rfl
    | some t0 =>
        show (match intoBoxedErr (qrun s m ar true) with
          | some e => (s, none, some e)
          | none => (s, none, none)).2.1 = none
        cases intoBoxedErr (qrun s m ar true) <;> rfl

/-- C6: query dispatch gives the handler only shared access, so the state
after `DynQuery::handle_dyn` equals the state before, for every handler,
reply capability, state, query and reply channel; message dispatch, in
contrast, gives the handler mutable access — there is a message handler whose
dispatch changes the state. -/
theorem c6_query_frame :
    ∀ (A M R V E : Type) (h : QryHandler A M R)
      (intoValue : R → V) (intoBoxedErr : R → Option E)
      (s : A) (m : M) (ar : ActorRef A) (tx : Option (OneshotSender V)),
      (DynQuery.handleDyn h intoValue intoBoxedErr s m ar tx).1 = s ∧
      (∃ (mh : MsgHandler Nat Unit Unit) (s0 : Nat),
        (DynMessage.handleDyn mh (fun u => u) (fun _ => (none : Option Unit))
          s0 () ⟨0⟩ none).1 ≠ s0) := by
  intro A M R V E h intoValue intoBoxedErr s m ar tx
  constructor
  · cases tx with
    | none =>
        show (match (if h.takes s m ar false then none
            else (none : Option (ReplySender V))) with
          | some sd => (s, some (sd.inner, intoValue (h.run s m ar false)),
              none)
          | none =>
            match intoBoxedErr (h.run s m ar false) with
            | some e => (s, none, some e)
            | none => (s, none, none)).1 = s
        cases h.takes s m ar false <;>
          cases intoBoxedErr (h.run s m ar false) <;> rfl
    | some t0 =>
        show (match (if h.takes s m ar true then none
            else some (ReplySender.new t0)) with
          | some sd => (s, some (sd.inner, intoValue (h.run s m ar true)),
              none)
          | none =>
            match intoBoxedErr (h.run s m ar true) with
            | some e => (s, none, some e)
            | none => (s, none, none)).1 = s
        cases h.takes s m ar true <;>
          cases intoBoxedErr (h.run s m ar true) <;> rfl
  · refine ⟨⟨fun a _ _ _ => ((), a + 1), fun _ _ _ _ => false⟩, 0, ?_⟩
    decide

/-- C7: every lifecycle hook of the `Actor` trait — `on_start`, `on_panic`,
`on_link_died`, `on_stop` — takes a `WeakActorRef` to self, not an
`ActorRef`; the hooks with a mutable receiver return the updated state, while
`on_stop` consumes the actor by value: its result type carries no state. -/
theorem c7_hooks_weak_self :
    ∀ (A : Type),
      (∃ f : ActorTrait A → A → WeakActorRef A → Except BoxError Unit × A,
        f = ActorTrait.onStart) ∧
      (∃ f : ActorTrait A → A → WeakActorRef A → PanicError →
          Except BoxError (Option ActorStopReason) × A,
        f = ActorTrait.onPanic) ∧
      (∃ f : ActorTrait A → A → WeakActorRef A → ActorID →
          ActorStopReason → Except BoxError (Option ActorStopReason) × A,
        f = ActorTrait.onLinkDied) ∧
      (∃ f : ActorTrait A → A → WeakActorRef A → ActorStopReason →
          Except BoxError Unit,
        f = ActorTrait.onStop) := by
  intro A
  exact ⟨⟨_, rfl⟩, ⟨_, rfl⟩, ⟨_, rfl⟩, ⟨_, rfl⟩⟩

/-- C8: for every actor type, the default `name` returns the host type-name
reflection of the actor type unchanged, and the default
`max_concurrent_queries` returns the host CPU count unchanged. -/
theorem c8_default_name_and_queries :
    ∀ (A : Type) (typeNameOfA : String) (numCpus : Nat),
      (mkDefaultActor A typeNameOfA numCpus).name =
        defaultName typeNameOfA ∧
      defaultName typeNameOfA = typeNameOfA ∧
      (mkDefaultActor A typeNameOfA numCpus).maxConcurrentQueries =
        defaultMaxConcurrentQueries numCpus ∧
      defaultMaxConcurrentQueries numCpus = numCpus := by
  intro A typeNameOfA numCpus
  exact ⟨rfl, rfl, rfl, rfl⟩

/-- C9: `Signal::downcast_message::<M>` returns `Some(payload)` exactly when
the signal is a `Message` whose erased payload has dynamic type `M`: both
mismatching payload types and the variants `StartupFinished`, `LinkDied` and
`Stop` give `None`. -/
theorem c9_downcast_message (ι : Type) [DecidableEq ι] (F : ι → Type)
    (A Rep : Type) (t : ι) :
    Signal.downcast_message (Signal.startupFinished : Signal ι F A Rep) t =
      none ∧
    Signal.downcast_message (Signal.stop : Signal ι F A Rep) t = none ∧
    (∀ id r, Signal.downcast_message
      (Signal.linkDied id r : Signal ι F A Rep) t = none) ∧
    (∀ (v : F t) ar reply w, Signal.downcast_message
      (Signal.message ⟨t, v⟩ ar reply w : Signal ι F A Rep) t = some v) ∧
    (∀ (b : BoxAny ι F) ar reply w, b.ty ≠ t → Signal.downcast_message
      (Signal.message b ar reply w : Signal ι F A Rep) t = none) := by
  refine ⟨rfl, rfl, fun id r => rfl, ?_, ?_⟩
  · intro v ar reply w
    show BoxAny.downcast ⟨t, v⟩ t = some v
    simp [BoxAny.downcast]
  · intro b ar reply w hne
    show BoxAny.downcast b t = none
    simp [BoxAny.downcast, hne]

/-- C9 (witness): concrete evaluations of the downcast at matching and
mismatching dynamic types. -/
theorem c9_downcast_message_witness :
    Signal.downcast_message
      (Signal.message ⟨0, 7⟩ ⟨0⟩ none false :
        Signal Nat (fun _ => Nat) Unit Unit) 0 = some 7 ∧
    Signal.downcast_message
      (Signal.message ⟨1, 5⟩ ⟨0⟩ none false :
        Signal Nat (fun _ => Nat) Unit Unit) 0 = none := by
  have h := c9_downcast_message Nat (fun _ => Nat) Unit Unit 0
  exact ⟨h.2.2.2.1 7 ⟨0⟩ none false,
    h.2.2.2.2 ⟨1, 5⟩ ⟨0⟩ none false (by decide)⟩

/-- C10: a plain function is an actor with all default hooks, and its
`Message` implementation handles a message `m` by exactly `f m`: the result
equals the specification-side `specFnHandle`, the function value is left
unchanged, the handler never takes the reply sender, and its behaviour is
independent of the context. -/
theorem c10_fn_message_refinement :
    ∀ (M R : Type) (f : M → R) (m : M)
      (ar ar2 : ActorRef (M → R)) (p q : Bool) (tn : String) (nc : Nat),
      ((fnMsgHandler M R).run f m ar p).1 = specFnHandle f m ∧
      ((fnMsgHandler M R).run f m ar p).2 = f ∧
      (fnMsgHandler M R).run f m ar p = (fnMsgHandler M R).run f m ar2 q ∧
      (fnMsgHandler M R).takes f m ar p = false ∧
      fnActorTrait M R tn nc = mkDefaultActor (M → R) tn nc := by
  intro M R f m ar ar2 p q tn nc
  exact ⟨rfl, rfl, rfl, rfl, rfl⟩
